import Mathlib

/-!
Verification of Sources/CLCLWebSocketZlib/include/CLCLWebSocketZlib.h from the
lcl-websocket repository.

The header defines three static inline C functions:

  CLCLWebSocketZlib_deflateInit2 strm level method windowBits memLevel strategy
    whose body is the single statement
      return deflateInit2(strm, level, method, windowBits, memLevel, strategy);

  CLCLWebSocketZlib_inflateInit2 strm windowBits
    whose body is the single statement
      return inflateInit2(strm, windowBits);

  CLCLWebSocketZlib_voidPtr_to_BytefPtr in
    whose body is the single statement
      return (Bytef *)in;

The external compression library (zlib) is not part of this repository; its
two initialization entry points are modelled abstractly as arbitrary functions
over an abstract state type.  The state type stands for everything an entry
point may observe or affect: the stream handle pointed to by strm together
with any internal library state.  Every theorem below is quantified over all
possible library behaviors, so it is decided solely by the wrapper code.
-/

/-- Abstract model of the external compression library's two
stream-initialization entry points.  A state of type sigma describes the
stream handle pointed to by strm together with the library's internal state;
an entry point maps the pre-state and its integer arguments to the returned
status code and the post-state.  The argument tuples follow the external
interface: stream handle, compression level, method identifier, window-bits,
memory-level, strategy identifier for the deflate path; stream handle and
window-bits for the inflate path. -/
structure ZlibModel (σ : Type) where
  deflateInit2 : σ → Int → Int → Int → Int → Int → Int × σ
  inflateInit2 : σ → Int → Int × σ

/-- A C object pointer of type void star: a raw address, uninterpreted. -/
structure VoidPtr where
  addr : Nat
  deriving DecidableEq

/-- A C object pointer of type Bytef star: a raw address, uninterpreted. -/
structure BytefPtr where
  addr : Nat
  deriving DecidableEq

/-- Embedding of CLCLWebSocketZlib_deflateInit2: its body is the single
statement returning the external deflate-initialization call on the six
arguments, in order.  The pre-state strm : σ plays the role of the state
reachable through the stream handle, and the returned pair carries the
status code together with the post-state. -/
def CLCLWebSocketZlib_deflateInit2 {σ : Type} (zlib : ZlibModel σ)
    (strm : σ) (level method windowBits memLevel strategy : Int) : Int × σ :=
  zlib.deflateInit2 strm level method windowBits memLevel strategy

/-- Embedding of CLCLWebSocketZlib_inflateInit2: its body is the single
statement returning the external inflate-initialization call on the two
arguments, in order. -/
def CLCLWebSocketZlib_inflateInit2 {σ : Type} (zlib : ZlibModel σ)
    (strm : σ) (windowBits : Int) : Int × σ :=
  zlib.inflateInit2 strm windowBits

/-- Embedding of CLCLWebSocketZlib_voidPtr_to_BytefPtr: its body is the
single statement returning the argument reinterpreted at type Bytef star.
In C, a cast between object-pointer types preserves the address. -/
def CLCLWebSocketZlib_voidPtr_to_BytefPtr (p : VoidPtr) : BytefPtr :=
  ⟨p.addr⟩

/-- The inverse C cast, from Bytef star back to void star; like every cast
between object-pointer types it preserves the address.  Used to state the
round-trip property of the helper. -/
def BytefPtr_to_voidPtr (p : BytefPtr) : VoidPtr :=
  ⟨p.addr⟩

/-- A C memory: a map from addresses to byte values.  Used to run the cast
helper against an explicit memory and show it neither reads nor writes it. -/
def Mem : Type := Nat → Nat

/-- State-passing execution of CLCLWebSocketZlib_voidPtr_to_BytefPtr against
an explicit memory.  The body, return (Bytef star)in, evaluates the cast
expression without any load or store, so the translation returns the cast
result and the memory it was given. -/
def CLCLWebSocketZlib_voidPtr_to_BytefPtr_run (m : Mem) (p : VoidPtr) :
    BytefPtr × Mem :=
  (CLCLWebSocketZlib_voidPtr_to_BytefPtr p, m)

/-- A concrete instantiation of the library model at state type Nat, used
only to exhibit the determinism theorem at explicit inputs. -/
def sampleZlib : ZlibModel Nat where
  deflateInit2 := fun s level method windowBits memLevel strategy =>
    (level + method + windowBits + memLevel + strategy, s + 1)
  inflateInit2 := fun s windowBits => (windowBits, s + 2)

/-- C1: for every argument tuple and every possible behavior of the external
library, CLCLWebSocketZlib_deflateInit2 returns the same status code and
produces the same post-state of the stream handle as the external
deflate-initialization entry point called directly on the same arguments. -/
theorem C1_deflateInit2_pass_through {σ : Type} (zlib : ZlibModel σ)
    (strm : σ) (level method windowBits memLevel strategy : Int) :
    (CLCLWebSocketZlib_deflateInit2 zlib strm level method windowBits memLevel
          strategy).1
        = (zlib.deflateInit2 strm level method windowBits memLevel strategy).1
      ∧ (CLCLWebSocketZlib_deflateInit2 zlib strm level method windowBits
          memLevel strategy).2
        = (zlib.deflateInit2 strm level method windowBits memLevel
            strategy).2 :=
  ⟨rfl, rfl⟩

/-- C2: for every argument tuple and every possible behavior of the external
library, CLCLWebSocketZlib_inflateInit2 returns the same status code and
produces the same post-state of the stream handle as the external
inflate-initialization entry point called directly on the same arguments. -/
theorem C2_inflateInit2_pass_through {σ : Type} (zlib : ZlibModel σ)
    (strm : σ) (windowBits : Int) :
    (CLCLWebSocketZlib_inflateInit2 zlib strm windowBits).1
        = (zlib.inflateInit2 strm windowBits).1
      ∧ (CLCLWebSocketZlib_inflateInit2 zlib strm windowBits).2
        = (zlib.inflateInit2 strm windowBits).2 :=
  ⟨rfl, rfl⟩

/-- C3: the integer returned by each initialization wrapper is exactly the
status code of the forwarded external call, for every argument tuple and
every library behavior: no remapping, wrapping, interpretation, replacement
or recovery takes place on any status, error statuses included. -/
theorem C3_status_codes_forwarded_verbatim {σ : Type} (zlib : ZlibModel σ)
    (strm : σ) (level method windowBits memLevel strategy wBits : Int) :
    (CLCLWebSocketZlib_deflateInit2 zlib strm level method windowBits memLevel
          strategy).1
        = (zlib.deflateInit2 strm level method windowBits memLevel strategy).1
      ∧ (CLCLWebSocketZlib_inflateInit2 zlib strm wBits).1
        = (zlib.inflateInit2 strm wBits).1 :=
  ⟨rfl, rfl⟩

/-- C4: the deflate-path wrapper takes exactly six parameters, a stream
handle, a compression level, a method identifier, a window-bits parameter, a
memory-level parameter and a strategy identifier, and its value is the
external deflate-initialization entry point applied to those six arguments
in that same order, each unchanged. -/
theorem C4_deflate_forwards_six_params_in_order {σ : Type}
    (zlib : ZlibModel σ) (strm : σ)
    (level method windowBits memLevel strategy : Int) :
    CLCLWebSocketZlib_deflateInit2 zlib strm level method windowBits memLevel
        strategy
      = zlib.deflateInit2 strm level method windowBits memLevel strategy :=
  rfl

/-- C5: the inflate-path wrapper takes exactly two parameters, a stream
handle and a window-bits parameter, and its value is the external
inflate-initialization entry point applied to those two arguments in that
same order, each unchanged. -/
theorem C5_inflate_forwards_two_params_in_order {σ : Type}
    (zlib : ZlibModel σ) (strm : σ) (windowBits : Int) :
    CLCLWebSocketZlib_inflateInit2 zlib strm windowBits
      = zlib.inflateInit2 strm windowBits :=
  rfl

/-- C6: none of the three functions validates, inspects or transforms its
arguments or the forwarded result: each initialization wrapper is
extensionally equal to the external entry point itself, so its entire effect
on any state, before and after the single forwarded call, is exactly the
external call's effect and nothing else; and the helper only reinterprets
the pointer type, leaving the address unchanged. -/
theorem C6_no_validation_no_transformation_no_own_state :
    (∀ (σ : Type) (zlib : ZlibModel σ),
        CLCLWebSocketZlib_deflateInit2 zlib = zlib.deflateInit2
          ∧ CLCLWebSocketZlib_inflateInit2 zlib = zlib.inflateInit2)
      ∧ ∀ p : VoidPtr,
          (CLCLWebSocketZlib_voidPtr_to_BytefPtr p).addr = p.addr :=
  ⟨fun _ _ => ⟨rfl, rfl⟩, fun _ => rfl⟩

/-- C7: the header's public interface is the three inline functions, and each
one's body is a single statement: the deflate wrapper is exactly the external
deflate-initialization call, the inflate wrapper is exactly the external
inflate-initialization call, and the helper is exactly the pointer
reinterpretation, with no further computation in any of them. -/
theorem C7_three_single_statement_forwarders :
    (∀ (σ : Type) (zlib : ZlibModel σ) (strm : σ)
        (level method windowBits memLevel strategy wBits : Int),
        CLCLWebSocketZlib_deflateInit2 zlib strm level method windowBits
            memLevel strategy
          = zlib.deflateInit2 strm level method windowBits memLevel strategy
        ∧ CLCLWebSocketZlib_inflateInit2 zlib strm wBits
          = zlib.inflateInit2 strm wBits)
      ∧ ∀ p : VoidPtr,
          CLCLWebSocketZlib_voidPtr_to_BytefPtr p = ⟨p.addr⟩ :=
  ⟨fun _ _ _ _ _ _ _ _ _ => ⟨rfl, rfl⟩, fun _ => rfl⟩

/-- C8: for every pointer value, the null pointer included,
CLCLWebSocketZlib_voidPtr_to_BytefPtr returns a Bytef-star pointer holding
exactly the same address as its argument, and casting the result back to
void star yields the original pointer: the helper is the identity on
addresses and the cast round-trips. -/
theorem C8_cast_identity_on_addresses_round_trip (p : VoidPtr) :
    (CLCLWebSocketZlib_voidPtr_to_BytefPtr p).addr = p.addr
      ∧ BytefPtr_to_voidPtr (CLCLWebSocketZlib_voidPtr_to_BytefPtr p) = p :=
  ⟨rfl, rfl⟩

/-- C9: CLCLWebSocketZlib_voidPtr_to_BytefPtr is total and side-effect-free:
run against any explicit memory and any pointer value, null or dangling
included, it always returns normally with the memory unchanged, and its
result does not depend on the memory's contents at all, so in particular its
argument is never dereferenced. -/
theorem C9_cast_total_no_dereference_no_side_effect :
    ∀ (m m₁ m₂ : Mem) (p : VoidPtr),
      (CLCLWebSocketZlib_voidPtr_to_BytefPtr_run m p).2 = m
        ∧ (CLCLWebSocketZlib_voidPtr_to_BytefPtr_run m₁ p).1
            = (CLCLWebSocketZlib_voidPtr_to_BytefPtr_run m₂ p).1 :=
  fun _ _ _ _ => ⟨rfl, rfl⟩

/-- C10: all three functions are deterministic: two calls with identical
argument values, an identical state of the stream handle and an identical
external library produce identical status codes and identical post-states;
no hidden nondeterminism or global state enters, the result depends only on
the arguments and the forwarded call. -/
theorem C10_all_three_deterministic {σ : Type} (zlib : ZlibModel σ)
    (s₁ s₂ : σ) (l₁ m₁ w₁ ml₁ st₁ l₂ m₂ w₂ ml₂ st₂ wi₁ wi₂ : Int)
    (p₁ p₂ : VoidPtr)
    (hd : s₁ = s₂ ∧ l₁ = l₂ ∧ m₁ = m₂ ∧ w₁ = w₂ ∧ ml₁ = ml₂ ∧ st₁ = st₂)
    (hi : wi₁ = wi₂) (hp : p₁ = p₂) :
    CLCLWebSocketZlib_deflateInit2 zlib s₁ l₁ m₁ w₁ ml₁ st₁
        = CLCLWebSocketZlib_deflateInit2 zlib s₂ l₂ m₂ w₂ ml₂ st₂
      ∧ CLCLWebSocketZlib_inflateInit2 zlib s₁ wi₁
        = CLCLWebSocketZlib_inflateInit2 zlib s₂ wi₂
      ∧ CLCLWebSocketZlib_voidPtr_to_BytefPtr p₁
        = CLCLWebSocketZlib_voidPtr_to_BytefPtr p₂ := by
  obtain ⟨h₁, h₂, h₃, h₄, h₅, h₆⟩ := hd
  subst h₁ h₂ h₃ h₄ h₅ h₆ hi hp
  exact ⟨rfl, rfl, rfl⟩

/-- Witness for C10: the determinism theorem applied at the concrete library
model sampleZlib with concrete states, integer arguments and pointers. -/
theorem C10_all_three_deterministic_witness :
    CLCLWebSocketZlib_deflateInit2 sampleZlib 0 9 8 15 8 0
        = CLCLWebSocketZlib_deflateInit2 sampleZlib 0 9 8 15 8 0
      ∧ CLCLWebSocketZlib_inflateInit2 sampleZlib 0 (-15)
        = CLCLWebSocketZlib_inflateInit2 sampleZlib 0 (-15)
      ∧ CLCLWebSocketZlib_voidPtr_to_BytefPtr ⟨0⟩
        = CLCLWebSocketZlib_voidPtr_to_BytefPtr ⟨0⟩ :=
  C10_all_three_deterministic sampleZlib 0 0 9 8 15 8 0 9 8 15 8 0 (-15) (-15)
    ⟨0⟩ ⟨0⟩ ⟨rfl, rfl, rfl, rfl, rfl, rfl⟩ rfl rfl
